import Mathlib

/-!
Verification development for the webfirmsolutions repository: a shallow
embedding, in Lean, of the client translation service (dictionary lookup,
language loading with default-language fallback, geo-IP language
detection), the client captcha and message services, the contact form
component submit handler, and the Express contact backend (contact
submission, admin listing, mark-as-read, and the per-IP rate limiter
configuration).

Conventions: JavaScript objects holding string keys are embedded as
association lists; `localStorage` / `sessionStorage` cells are `Option
String` fields of an explicit state record; HTTP / network outcomes are
passed in as environment parameters (`Option` results or oracle
functions); observable side effects (network calls, toasts) are returned
as explicit effect lists.
-/

namespace WebFirm

/-- Association-list lookup, embedding JavaScript object property access
`obj[key]` for string-keyed records (first match wins; JS objects have
unique keys). -/
def findKV : List (String × α) → String → Option α
  | [], _ => none
  | (k, v) :: rest, key => if k = key then some v else findKV rest key

/-- Embedding of JavaScript `Array.prototype.slice(-n)`: the suffix of the
last `n` elements. -/
def takeLast (n : Nat) (l : List α) : List α :=
  l.drop (l.length - n)

/-- JavaScript whitespace test for `trim` (the characters relevant
here). -/
def isWS (c : Char) : Bool :=
  c = ' ' || c = '\n' || c = '\t' || c = '\r'

/-- Embedding of JavaScript `String.prototype.trim` over the character
list (kernel-computable, unlike `String.trim`). -/
def jsTrim (s : String) : String :=
  String.mk (((s.data.dropWhile isWS).reverse.dropWhile isWS).reverse)

/-- Embedding of JavaScript `String.prototype.split(sep)` for a
one-character separator: `"".split(sep)` is `[""]`, and adjacent
separators yield empty segments. -/
def jsSplitAux (sep : Char) : List Char → List Char → List String
  | [], acc => [String.mk acc.reverse]
  | c :: cs, acc =>
      if c = sep then String.mk acc.reverse :: jsSplitAux sep cs []
      else jsSplitAux sep cs (c :: acc)

/-- See `jsSplitAux`. -/
def jsSplit (sep : Char) (s : String) : List String :=
  jsSplitAux sep s.data []

/-- ASCII lower-casing of one character (what `toLowerCase` does on the
inputs of this system). -/
def lowerChar (c : Char) : Char :=
  if 'A' ≤ c && c ≤ 'Z' then Char.ofNat (c.toNat + 32) else c

/-- Embedding of JavaScript `String.prototype.toLowerCase` (ASCII
range). -/
def jsToLower (s : String) : String :=
  String.mk (s.data.map lowerChar)

/-- Embedding of JavaScript `String.prototype.includes(c)` for a
one-character needle. -/
def jsIncludesChar (s : String) (c : Char) : Bool :=
  s.data.contains c

/-- Fuel-driven scan for `jsReplaceAll`: at each position, when the
pattern is a prefix, emit the replacement and skip past the match
(non-overlapping, left to right), else keep the character. The fuel is
the length of the text, which bounds the number of steps. -/
def jsReplaceAux (pat rep : List Char) : Nat → List Char → List Char
  | _, [] => []
  | 0, cs => cs
  | fuel + 1, c :: cs =>
      if pat.isPrefixOf (c :: cs) then
        rep ++ jsReplaceAux pat rep fuel ((c :: cs).drop pat.length)
      else
        c :: jsReplaceAux pat rep fuel cs

/-- Embedding of JavaScript `text.replace(new RegExp(pattern, 'g'),
rep)` for a literal pattern: replace every non-overlapping occurrence.
An empty pattern is returned unchanged (never the case here: the
placeholder patterns have the form `\x7b\x7bname\x7d\x7d`). -/
def jsReplaceAll (text pat rep : String) : String :=
  if pat.data.isEmpty then text
  else String.mk (jsReplaceAux pat.data rep.data text.data.length text.data)

/-- Value of a list of decimal digit characters, most significant first. -/
def digitsValue (ds : List Char) : Nat :=
  ds.foldl (fun acc c => acc * 10 + (c.toNat - 48)) 0

/-- Leading-digit prefix value: `none` when the first character is not a
digit (JavaScript `parseInt` yields `NaN` there), otherwise the value of
the longest digit prefix (trailing junk ignored, as in `parseInt`). -/
def leadingDigits (cs : List Char) : Option Nat :=
  let ds := cs.takeWhile Char.isDigit
  if ds.isEmpty then none else some (digitsValue ds)

/-- Embedding of JavaScript `parseInt(s, 10)`: skip surrounding
whitespace, accept an optional sign, then read the longest decimal digit
prefix; `none` models `NaN`. -/
def parseIntJs (s : String) : Option Int :=
  match (jsTrim s).data with
  | '-' :: rest => (leadingDigits rest).map (fun n => -(n : Int))
  | '+' :: rest => (leadingDigits rest).map (fun n => (n : Int))
  | cs => (leadingDigits cs).map (fun n => (n : Int))

/-! ## Translation service (src/unnamed/part_001 and part_002)

`TranslationData` is a nested string map; the service keeps the loaded
dictionary, the current language, and the `localStorage` /
`sessionStorage` cells used for the stored preference and the session
auto-detection marker. -/

/-- A value of the nested `TranslationData` JSON dictionary: either a
string or a nested object. -/
inductive TransValue where
  | str : String → TransValue
  | obj : List (String × TransValue) → TransValue

/-- A top-level translation dictionary (the parsed `{lang}.json`). -/
abbrev Dict := List (String × TransValue)

/-- The hardcoded fallback map of `TranslationService.getFallbackText`
(src/unnamed/part_001 lines 97-192), transcribed entry for entry.
Braces and apostrophes inside the texts are written with `\xNN` escapes. -/
def fallbackMap : List (String × String) := [
  ("navigation.menu", "Main navigation"),
  ("navigation.services", "Services"),
  ("navigation.about", "About Us"),
  ("navigation.contact", "Contact"),
  ("common.language", "Change Language"),
  ("footer.copyright", "© \x7b\x7byear\x7d\x7d Web Firm Solutions. All rights reserved."),
  ("footer.websiteAriaLabel", "Visit our website at webfirmsolutions.com"),
  ("contact.title", "Let\x27s Work Together"),
  ("contact.subtitle", "Ready to transform your ideas into reality?"),
  ("hero.title", "Transform Your Ideas into"),
  ("hero.titleAccent", "Ultra Interactive"),
  ("hero.titleEnd", "Web Experiences"),
  ("hero.subtitle", "With 20+ years of international experience, we craft interactive, SEO-optimized websites that elevate visibility and conversions. Specialized in Angular, React, and modern web technologies."),
  ("hero.seoContent", "Professional web design and frontend development services. Expert in responsive design, user experience optimization, and modern web technologies. Serving clients worldwide with premium web development solutions."),
  ("hero.ctaButton", "Let\x27s Get Started"),
  ("hero.secondaryButton", "View Our Work"),
  ("hero.ctaAriaLabel", "Contact us to get started with your project"),
  ("hero.secondaryAriaLabel", "View our services and portfolio"),
  ("hero.features.performance.title", "Fast Performance"),
  ("hero.features.performance.description", "Lightning-fast loading times"),
  ("hero.features.mobile.title", "Mobile First"),
  ("hero.features.mobile.description", "Responsive across all devices"),
  ("hero.features.seo.title", "SEO Optimized"),
  ("hero.features.seo.description", "Built for search engines"),
  ("services.title", "Our Premium Services"),
  ("services.subtitle", "We deliver cutting-edge solutions tailored to your business needs"),
  ("services.learnMore", "Learn More"),
  ("services.learnMoreAbout", "Learn more about"),
  ("services.web-design-ux-ui.title", "Web Design & UX/UI"),
  ("services.web-design-ux-ui.description", "Intuitive, visually stunning designs that delight users and drive higher conversion rates across devices."),
  ("services.advanced-frontend-development.title", "Advanced Frontend Development"),
  ("services.advanced-frontend-development.description", "High-performance web apps with React, Angular, Vue, or Vanilla JS, fully optimized for SEO and speed."),
  ("services.technical-consulting-seo.title", "Technical Consulting & SEO"),
  ("services.technical-consulting-seo.description", "Scalable, secure, and high-performing strategies to maximize business impact and search engine visibility."),
  ("about.title", "About Us"),
  ("about.teamImage", "Our Team"),
  ("about.professionalExcellence", "Professional Excellence"),
  ("about.ourApproach", "Our Approach"),
  ("about.startupReady", "Startup Ready"),
  ("about.description1", "We are a team of frontend experts with international experience, having worked at Google, Amazon, and Facebook. We turn complex ideas into elegant, efficient web solutions."),
  ("about.description2", "Every project gets a personalized approach focused on users and performance, delivering measurable results for our clients."),
  ("about.stats.projects", "Projects"),
  ("about.stats.clients", "Clients"),
  ("about.stats.satisfaction", "Satisfaction"),
  ("about.whyChooseUs.title", "Why Choose Us"),
  ("about.whyChooseUs.modernTech", "Modern Tech Stack"),
  ("about.whyChooseUs.seoOptimized", "SEO Optimized"),
  ("about.whyChooseUs.fastDelivery", "Fast Delivery"),
  ("about.whyChooseUs.support247", "24/7 Support"),
  ("about.quote.text", "Transforming startup ideas into stunning web experiences"),
  ("about.quote.author", "WebFirm Team"),
  ("about.quote.role", "Frontend Experts"),
  ("whyChooseUs.title", "Why Choose Us"),
  ("whyChooseUs.experience.label", "Projects Completed"),
  ("whyChooseUs.projects.label", "Happy Clients"),
  ("whyChooseUs.satisfaction.label", "Client Satisfaction"),
  ("whyChooseUs.features.fast.title", "Lightning Fast"),
  ("whyChooseUs.features.fast.description", "Optimized for speed and performance"),
  ("whyChooseUs.features.modern.title", "Modern Design"),
  ("whyChooseUs.features.modern.description", "Beautiful, contemporary interfaces"),
  ("whyChooseUs.features.secure.title", "Secure & Reliable"),
  ("whyChooseUs.features.secure.description", "Built with security best practices"),
  ("whyChooseUs.features.responsive.title", "Fully Responsive"),
  ("whyChooseUs.features.responsive.description", "Perfect on all devices"),
  ("technologies.title", "Technologies We Use"),
  ("technologies.subtitle", "Modern tools for powerful solutions"),
  ("technologies.angular.description", "Enterprise-grade framework for scalable applications"),
  ("technologies.react.description", "Dynamic and flexible UI library"),
  ("technologies.typescript.description", "Type-safe JavaScript for reliable code"),
  ("technologies.nodejs.description", "Server-side JavaScript runtime"),
  ("technologies.wordpress.description", "Powerful CMS for content-driven sites"),
  ("technologies.mongodb.description", "Flexible NoSQL database"),
  ("portfolio.title", "Our Work"),
  ("portfolio.subtitle", "Stunning websites for startups and businesses"),
  ("portfolio.categories.all", "All Projects"),
  ("portfolio.categories.web", "Websites"),
  ("portfolio.categories.ecommerce", "E-Commerce"),
  ("portfolio.categories.landing", "Landing Pages"),
  ("portfolio.projects.ecommerce.title", "E-Commerce Platform"),
  ("portfolio.projects.ecommerce.description", "Full-featured online store with payment integration"),
  ("portfolio.projects.corporate.title", "Corporate Website"),
  ("portfolio.projects.corporate.description", "Professional business presentation site"),
  ("portfolio.projects.startup.title", "Startup Landing Page"),
  ("portfolio.projects.startup.description", "Modern landing page for tech startup"),
  ("portfolio.projects.restaurant.title", "Restaurant Website"),
  ("portfolio.projects.restaurant.description", "Beautiful site with online reservations"),
  ("portfolio.projects.saas.title", "SaaS Dashboard"),
  ("portfolio.projects.saas.description", "Advanced web application with analytics"),
  ("portfolio.projects.blog.title", "Blog Platform"),
  ("portfolio.projects.blog.description", "Content management system with SEO")]

/-- `TranslationService.getFallbackText`: `fallbackMap[keyPath] || keyPath`
(the JS `||` treats the empty string as falsy). -/
def getFallbackText (keyPath : String) : String :=
  match findKV fallbackMap keyPath with
  | some v => if v = "" then keyPath else v
  | none => keyPath

/-- Dotted-path traversal of `getTranslationByKey`: descend while the
current value is an object containing the next segment (`typeof current
=== 'object' && key in current`); `some s` exactly when the whole path
resolves to a string value. -/
def resolvePath : TransValue → List String → Option String
  | TransValue.str s, [] => some s
  | TransValue.obj _, [] => none
  | TransValue.obj entries, k :: rest =>
      match findKV entries k with
      | some v => resolvePath v rest
      | none => none
  | TransValue.str _, _ :: _ => none

/-- `TranslationService.getTranslationByKey`: if the dictionary is empty
(translations not loaded), or the dotted path fails to resolve to a
string, fall back to `getFallbackText`. -/
def getTranslationByKey (dict : Dict) (keyPath : String) : String :=
  if dict.isEmpty then getFallbackText keyPath
  else
    match resolvePath (TransValue.obj dict) (jsSplit '.' keyPath) with
    | some s => s
    | none => getFallbackText keyPath

/-- `TranslationService.translate`: resolve the key, then (when params
are given) replace each `\x7b\x7bname\x7d\x7d` placeholder by its value,
globally, in parameter order. -/
def translate (dict : Dict) (key : String)
    (params : Option (List (String × String))) : String :=
  let translation := getTranslationByKey dict key
  match params with
  | none => translation
  | some ps =>
      ps.foldl (fun text p =>
        jsReplaceAll text ("\x7b\x7b" ++ p.1 ++ "\x7d\x7d") p.2) translation

/-! ## Language state and country mapping (src/unnamed/part_002) -/

/-- `supportedLanguages` of the translation service (note: the `Language`
union type also names `es`, but the supported list does not include it). -/
def supportedLanguages : List String := ["en", "ro", "fr", "de", "uk"]

/-- The configured `defaultLanguage`. -/
def defaultLanguage : String := "en"

/-- `TranslationService.isLanguageSupported`. -/
def isLanguageSupported (language : String) : Bool :=
  supportedLanguages.contains language

/-- The `countryToLanguage` table (src/unnamed/part_002 lines 22-29). -/
def countryToLanguage : List (String × String) := [
  ("RO", "ro"), ("MD", "ro"),
  ("FR", "fr"), ("BE", "fr"), ("CH", "fr"), ("CA", "fr"), ("LU", "fr"),
  ("DE", "de"), ("AT", "de"),
  ("UA", "uk"),
  ("US", "en"), ("GB", "en"), ("AU", "en"), ("NZ", "en"), ("IE", "en")]

/-- `this.countryToLanguage[countryCode] || this.defaultLanguage` from
`detectAndSetLanguageByCountry` (`||`: empty string is falsy). -/
def resolveCountryLanguage (countryCode : String) : String :=
  match findKV countryToLanguage countryCode with
  | some l => if l = "" then defaultLanguage else l
  | none => defaultLanguage

/-- The `timezoneToCountry` table of `detectCountry` (last-resort
country guess from the browser timezone). -/
def timezoneToCountry : List (String × String) := [
  ("Europe/Bucharest", "RO"),
  ("Europe/Chisinau", "MD"),
  ("Europe/Paris", "FR"),
  ("Europe/Berlin", "DE"),
  ("Europe/Vienna", "AT"),
  ("Europe/Kiev", "UA"),
  ("Europe/Kyiv", "UA"),
  ("America/New_York", "US"),
  ("America/Los_Angeles", "US"),
  ("America/Chicago", "US"),
  ("Europe/London", "GB")]

/-- The observable state of the translation service together with the
client storage cells it reads and writes: the in-memory dictionary and
current language (signals), the `localStorage` entry `webfirm_language`
(stored preference) and the `sessionStorage` entry
`autoDetectedLanguage` (session auto-detection marker). -/
structure AppState where
  translations : Dict
  currentLanguage : String
  isLoading : Bool
  localStored : Option String
  sessionAutoDetected : Option String

/-- State at service construction: empty dictionary, default language,
nothing stored. -/
def initialAppState : AppState :=
  { translations := []
    currentLanguage := defaultLanguage
    isLoading := false
    localStored := none
    sessionAutoDetected := none }

/-- `TranslationService.getStoredLanguage`: the `localStorage` entry,
validated against the supported list (`stored &&
this.isLanguageSupported(stored) ? stored : null`). -/
def getStoredLanguage (s : AppState) : Option String :=
  match s.localStored with
  | some v => if v ≠ "" && isLanguageSupported v then some v else none
  | none => none

/-- `TranslationService.getBrowserLanguage`: the base of
`navigator.language` (text before the first `-`) when supported;
`browserLanguage = none` models `navigator` being undefined. -/
def getBrowserLanguage (browserLanguage : Option String) : Option String :=
  match browserLanguage with
  | none => none
  | some b =>
      let base := (jsSplit '-' b).headD ""
      if isLanguageSupported base then some base else none

/-- Network requests the client can issue: a geolocation API call or a
translation dictionary fetch. -/
inductive Effect where
  | geoFetch : String → Effect
  | dictFetch : String → Effect
deriving DecidableEq, Repr

/-- `TranslationService.loadLanguage`: fetch
`/assets/i18n/{language}.json` (the `fetch` oracle gives the outcome).
On success, replace the dictionary, set the current language, persist
the choice to `localStorage`, and clear the loading flag. On failure,
retry recursively with the default language when the requested one is
not the default; when the default itself fails, only the loading flag
changes. The emitted boolean is always `true`: the final
`switchMap(() => of(true))` discards the inner result. -/
def loadLanguage (fetch : String → Option Dict) (language : String)
    (s : AppState) : AppState × Bool × List Effect :=
  let s0 := { s with isLoading := true }
  match fetch language with
  | some translations =>
      ({ s0 with
          translations := translations
          currentLanguage := language
          localStored := some language
          isLoading := false },
        true, [Effect.dictFetch language])
  | none =>
      let s1 := { s0 with isLoading := false }
      if language = defaultLanguage then
        (s1, true, [Effect.dictFetch language])
      else
        let r := loadLanguage fetch defaultLanguage s1
        (r.1, r.2.1, Effect.dictFetch language :: r.2.2)
termination_by (if language = defaultLanguage then 0 else 1)
decreasing_by simp_all

/-- `TranslationService.setLanguage`: reject unsupported languages,
short-circuit when the language is already current, otherwise load. -/
def setLanguage (fetch : String → Option Dict) (language : String)
    (s : AppState) : AppState × Bool × List Effect :=
  if ¬ isLanguageSupported language then (s, false, [])
  else if language = s.currentLanguage then (s, true, [])
  else loadLanguage fetch language s

/-- Environment of the detection code: outcomes of the three geo-IP
APIs (`none` = network failure or missing field, `some ""` = present but
falsy), the browser timezone, `navigator.language`, and the dictionary
fetch oracle used by `setLanguage`. -/
structure DetectEnv where
  api1 : Option String
  api2 : Option String
  api3 : Option String
  timezone : Option String
  browserLanguage : Option String
  fetch : String → Option Dict

/-- URL of the first geolocation API tried by `detectCountry`. -/
def geoUrl1 : String := "https://ipapi.co/json/"

/-- URL of the second geolocation API tried by `detectCountry`. -/
def geoUrl2 : String := "http://ip-api.com/json/?fields=countryCode"

/-- URL of the third geolocation API tried by `detectCountry`. -/
def geoUrl3 : String := "https://ipwhois.app/json/"

/-- The `for (const api of apis)` loop of `detectCountry`: issue each
request in order; the first truthy country code wins, failures and falsy
codes fall through to the next API. -/
def tryGeoApis : List (String × Option String) → Option String × List Effect
  | [] => (none, [])
  | (url, r) :: rest =>
      match r with
      | some c =>
          if c ≠ "" then (some c, [Effect.geoFetch url])
          else
            let t := tryGeoApis rest
            (t.1, Effect.geoFetch url :: t.2)
      | none =>
          let t := tryGeoApis rest
          (t.1, Effect.geoFetch url :: t.2)

/-- `TranslationService.detectCountry`: three geo-IP APIs in order, then
the timezone table as a last resort (`timezoneToCountry[timezone] ||
null`); `none` when everything fails. -/
def detectCountry (env : DetectEnv) : Option String × List Effect :=
  let t := tryGeoApis [(geoUrl1, env.api1), (geoUrl2, env.api2), (geoUrl3, env.api3)]
  match t.1 with
  | some c => (some c, t.2)
  | none =>
      match env.timezone with
      | some tz => (findKV timezoneToCountry tz, t.2)
      | none => (none, t.2)

/-- Body of `detectAndSetLanguageByCountry` past the two guard checks:
detect the country; on a truthy country code, map it through
`countryToLanguage` (default on a miss), write the result to the
session marker, and set the language; on no country, do nothing further
(in particular the session marker stays unset). `detectCountry` cannot
throw, so the `catch` branch (browser-language fallback) is
unreachable. -/
def detectBody (env : DetectEnv) (s : AppState) : AppState × List Effect :=
  let d := detectCountry env
  match d.1 with
  | some code =>
      if code = "" then (s, d.2)
      else
        let language := resolveCountryLanguage code
        let s1 := { s with sessionAutoDetected := some language }
        let r := setLanguage env.fetch language s1
        (r.1, d.2 ++ r.2.2)
  | none => (s, d.2)

/-- `TranslationService.detectAndSetLanguageByCountry`: return
immediately when a stored preference exists or when the session marker
is already set (truthy); otherwise run the detection body. -/
def detectAndSetLanguageByCountry (env : DetectEnv) (s : AppState) :
    AppState × List Effect :=
  match getStoredLanguage s with
  | some _ => (s, [])
  | none =>
      match s.sessionAutoDetected with
      | some v => if v = "" then detectBody env s else (s, [])
      | none => detectBody env s

/-- `TranslationService.getCurrentLanguage` (src/unnamed/part_002 lines
341-366): stored preference first, then the session auto-detection
marker (when truthy and supported), then the browser language, then the
default. -/
def getCurrentLanguage (env : DetectEnv) (s : AppState) : String :=
  match getStoredLanguage s with
  | some l => l
  | none =>
      let autoD := s.sessionAutoDetected.getD ""
      if autoD ≠ "" && isLanguageSupported autoD then autoD
      else
        match getBrowserLanguage env.browserLanguage with
        | some b => b
        | none => defaultLanguage

/-! ## Captcha (src/src/app/services/captcha.service.ts and
src/server/server.js) -/

/-- `CaptchaChallenge`: question, numeric answer, id. -/
structure Challenge where
  question : String
  answer : Int
  id : String
deriving DecidableEq

/-- `CaptchaService.validateAnswer` over the service state
(`currentChallenge : Option Challenge`): reject on a missing challenge
or an id mismatch (state untouched), reject on an empty trimmed answer
(state untouched — the early return happens before the clearing line),
otherwise compare `parseInt(answer, 10)` with the stored answer and
clear the challenge whatever the outcome. -/
def validateAnswer (userAnswer challengeId : String)
    (cur : Option Challenge) : Bool × Option Challenge :=
  match cur with
  | none => (false, none)
  | some ch =>
      if ch.id ≠ challengeId then (false, some ch)
      else
        let answerStr := jsTrim userAnswer
        if answerStr = "" then (false, some ch)
        else
          let isValid :=
            match parseIntJs answerStr with
            | some n => n = ch.answer
            | none => false
          (isValid, none)

/-- A server-side captcha store entry: expected answer and creation
time in milliseconds. -/
structure ServerCaptchaEntry where
  answer : Int
  timestamp : Nat
deriving DecidableEq

/-- The server captcha store, a map keyed by challenge id. -/
abbrev CaptchaStore := List (String × ServerCaptchaEntry)

/-- `Map.delete` on the id-keyed store. -/
def deleteKey (store : CaptchaStore) (key : String) : CaptchaStore :=
  store.filter (fun p => p.1 ≠ key)

/-- `validateCaptcha` of server.js: unknown id → false (store
untouched); expired (older than 10 minutes) → delete and false;
otherwise compare `parseInt(userAnswer, 10)` and delete the entry after
the attempt regardless of outcome. -/
def validateCaptcha (now : Nat) (captchaId userAnswer : String)
    (store : CaptchaStore) : Bool × CaptchaStore :=
  match findKV store captchaId with
  | none => (false, store)
  | some e =>
      if now - e.timestamp > 10 * 60 * 1000 then
        (false, deleteKey store captchaId)
      else
        let isValid :=
          match parseIntJs userAnswer with
          | some n => n = e.answer
          | none => false
        (isValid, deleteKey store captchaId)

/-! ## MessageService (src/src/app/services/captcha.service.ts, second
document: MessageService) -/

/-- `ContactFormData` as the contact component holds it (the `captcha`
text field is part of the form object and is spread into the
payload). -/
structure ContactFormData where
  name : String
  email : String
  message : String
  captcha : String
deriving DecidableEq

/-- A message in the `webfirm_messages_backup` local-storage array. -/
structure LocalMessage where
  name : String
  email : String
  message : String
  captcha : String
  id : String
  timestamp : String
  status : String
deriving DecidableEq

/-- `MessageService.saveMessageLocally`: append the message (status
`new`) and keep only the last 100 entries (`slice(-100)`, oldest
evicted first). -/
def saveMessageLocally (formData : ContactFormData) (id timestamp : String)
    (storage : List LocalMessage) : List LocalMessage :=
  let message : LocalMessage :=
    { name := formData.name
      email := formData.email
      message := formData.message
      captcha := formData.captcha
      id := id
      timestamp := timestamp
      status := "new" }
  takeLast 100 (storage ++ [message])

/-- Outcome of the HTTP POST performed by `submitMessage` (after its
retries): a parsed response `{success, id}` or a network error. -/
inductive NetResult where
  | ok : Bool → String → NetResult
  | err : NetResult
deriving DecidableEq

/-- What the `submitMessage` observable emits to its subscriber. -/
inductive SubmitEmit where
  | next : Bool → String → SubmitEmit
  | error : SubmitEmit
deriving DecidableEq

/-- A network call issued by `MessageService.submitMessage`: the POST of
`{...formData, captchaId}` to `/api/contact`. -/
inductive MsgCall where
  | contactPost : ContactFormData → Option String → MsgCall
deriving DecidableEq

/-- `MessageService.submitMessage`: when the API base URL is the
production `api-not-available` placeholder, save locally and emit a
simulated success (no network call). Otherwise POST the payload; the
`tap` saves the message to local storage only when the response has
`success = true`; `catchError` re-throws, so a network error leaves the
local backup untouched. The third component lists the network calls
made. -/
def submitMessage (apiNotAvailable : Bool) (formData : ContactFormData)
    (captchaId : Option String) (genId nowTs : String) (net : NetResult)
    (storage : List LocalMessage) :
    SubmitEmit × List LocalMessage × List MsgCall :=
  if apiNotAvailable then
    (SubmitEmit.next true genId, saveMessageLocally formData genId nowTs storage, [])
  else
    let call := MsgCall.contactPost formData captchaId
    match net with
    | NetResult.ok true rid =>
        (SubmitEmit.next true rid, saveMessageLocally formData rid nowTs storage, [call])
    | NetResult.ok false rid =>
        (SubmitEmit.next false rid, storage, [call])
    | NetResult.err =>
        (SubmitEmit.error, storage, [call])

/-! ## ContactComponent (src/src/app/components/contact/contact.component.ts,
second document) -/

/-- The component state touched by `onSubmit`: the form model, the
hidden honeypot field, the component-held challenge, the submission
flag, the modal flag, and the `CaptchaService` current challenge. -/
structure ContactState where
  formData : ContactFormData
  honeypotField : String
  captchaChallenge : Option Challenge
  isSubmitting : Bool
  isModalOpen : Bool
  serviceChallenge : Option Challenge
deriving DecidableEq

/-- Observable actions of `onSubmit`: the network submission (the spread
form payload plus the challenge id) and the toast notifications (carried
as their translation key paths). -/
inductive CEffect where
  | submitNet : ContactFormData → Option String → CEffect
  | toastSuccess : String → CEffect
  | toastWarning : String → CEffect
  | toastError : String → CEffect
deriving DecidableEq

/-- Outcome delivered to the `subscribe` handlers of the submission
observable. -/
inductive SubmitResult where
  | success : String → SubmitResult
  | failure : SubmitResult
deriving DecidableEq

/-- `ContactComponent.generateNewCaptcha`: `CaptchaService
.generateChallenge()` installs a fresh challenge (passed here as the
`fresh` oracle, standing for the random generation) in the service and
the component, and the previous captcha answer is cleared. -/
def generateNewCaptchaState (fresh : Challenge) (s : ContactState) :
    ContactState :=
  { s with
      captchaChallenge := some fresh
      serviceChallenge := some fresh
      formData := { s.formData with captcha := "" } }

/-- `ContactComponent.onSubmit`, as a transition on the component state,
the local-storage backup array, and an effect list. `fresh` is the
challenge that `generateNewCaptcha` would install, `result` the outcome
the submission observable would deliver, `nowTs` the timestamp used for
the local backup. Branches in source order: the honeypot check (silent
return), the captcha guard (`!challenge || !answer ||
!validateAnswer(...)`, with JavaScript short-circuiting, so the service
state is only touched when the first two pass), the required-fields
check, then the submission with its success / error callbacks (the
transient `isSubmitting = true` is overwritten by the callback before
the transition's final state is observed). -/
def onSubmit (fresh : Challenge) (result : SubmitResult) (nowTs : String)
    (s : ContactState) (storage : List LocalMessage) :
    ContactState × List CEffect × List LocalMessage :=
  if s.honeypotField ≠ "" && jsTrim s.honeypotField ≠ "" then
    (s, [], storage)
  else
    let captchaAnswer := jsTrim s.formData.captcha
    let warnState := fun st =>
      (generateNewCaptchaState fresh st,
        [CEffect.toastWarning "contact.validation.captchaIncorrect"], storage)
    match s.captchaChallenge with
    | none => warnState s
    | some ch =>
        if captchaAnswer = "" then warnState s
        else
          let v := validateAnswer captchaAnswer ch.id s.serviceChallenge
          let s0 := { s with serviceChallenge := v.2 }
          if ¬ v.1 then warnState s0
          else if s0.formData.name ≠ "" && s0.formData.email ≠ ""
              && s0.formData.message ≠ "" then
            let payload := CEffect.submitNet s0.formData (some ch.id)
            match result with
            | SubmitResult.success rid =>
                ({ s0 with
                    formData := { name := "", email := "", message := "", captcha := "" }
                    isSubmitting := false
                    isModalOpen := false },
                  [payload, CEffect.toastSuccess "contact.modal.success"],
                  saveMessageLocally s0.formData rid nowTs storage)
            | SubmitResult.failure =>
                (generateNewCaptchaState fresh { s0 with isSubmitting := false },
                  [payload, CEffect.toastError "contact.modal.error"],
                  storage)
          else
            (s0, [CEffect.toastWarning "contact.validation.allRequired"], storage)

/-! ## Contact backend (src/server/server.js) -/

/-- The shared-secret admin key (`ADMIN_KEY` defaults to this value). -/
def adminKey : String := "webfirm_admin_2024"

/-- A message record as persisted in `messages.json`. -/
structure ServerMessage where
  id : String
  name : String
  email : String
  message : String
  timestamp : String
  ip : String
  userAgent : String
  status : String
  readAt : Option String
deriving DecidableEq

/-- The request body of `POST /api/contact` (name, email, message). -/
structure ContactReq where
  name : String
  email : String
  message : String
deriving DecidableEq

/-- `validateContactData`: name present with trimmed length at least 2,
email present containing `@`, message present with trimmed length at
least 10 (`!x` rejects the empty string before the typed checks). -/
def validateContactData (r : ContactReq) : Bool :=
  if r.name = "" || (jsTrim r.name).length < 2 then false
  else if r.email = "" || ¬ jsIncludesChar r.email '@' then false
  else if r.message = "" || (jsTrim r.message).length < 10 then false
  else true

/-- Response of the `POST /api/contact` handler. -/
inductive ContactResponse where
  | invalid : String → ContactResponse
  | saveFailed : ContactResponse
  | ok : String → ContactResponse
deriving DecidableEq

/-- The `POST /api/contact` handler: validate, build the message record
(trimmed name, trimmed lower-cased email, trimmed message, status
`new`), append it to the loaded list and rewrite the file. `newId`,
`nowIso`, `ip`, `userAgent` stand for `Date.now().toString()`, the ISO
timestamp, `req.ip` and the user-agent header; `fsOk` is the outcome of
`saveMessages`. -/
def postContact (r : ContactReq) (newId nowIso ip userAgent : String)
    (fsOk : Bool) (store : List ServerMessage) :
    ContactResponse × List ServerMessage :=
  if ¬ validateContactData r then
    (ContactResponse.invalid "validation", store)
  else
    let newMessage : ServerMessage :=
      { id := newId
        name := jsTrim r.name
        email := jsToLower (jsTrim r.email)
        message := jsTrim r.message
        timestamp := nowIso
        ip := ip
        userAgent := userAgent
        status := "new"
        readAt := none }
    let messages := store ++ [newMessage]
    if fsOk then (ContactResponse.ok newId, messages)
    else (ContactResponse.saveFailed, store)

/-- The `GET /api/admin/messages` handler: `none` models the 401
response on a wrong key; on success the stored list is returned
newest-first (`messages.reverse()`). -/
def getAdminMessages (key : String) (store : List ServerMessage) :
    Option (List ServerMessage) :=
  if key = adminKey then some store.reverse else none

/-- The mutation of the mark-as-read handler: `findIndex` locates the
first message with the given id, whose `status` becomes `read` and
`readAt` the current ISO timestamp. -/
def markFirstRead (msgId nowIso : String) :
    List ServerMessage → List ServerMessage
  | [] => []
  | m :: rest =>
      if m.id = msgId then
        { m with status := "read", readAt := some nowIso } :: rest
      else m :: markFirstRead msgId nowIso rest

/-- Result of `POST /api/admin/messages/:id/read`, with the HTTP status
and `success` flag of the JSON body. -/
structure MarkReadResult where
  status : Nat
  success : Bool
deriving DecidableEq

/-- The mark-as-read handler: 401 on a wrong key (store untouched, no
write), 404 when no stored message has the id (the handler returns
before `saveMessages`, so no file rewrite), otherwise update the first
matching message and rewrite the file; 500 when the write fails. The
final boolean reports whether `saveMessages` was called at all. -/
def markRead (key msgId nowIso : String) (fsOk : Bool)
    (store : List ServerMessage) :
    MarkReadResult × List ServerMessage × Bool :=
  if key ≠ adminKey then (⟨401, false⟩, store, false)
  else if ¬ store.any (fun m => m.id = msgId) then (⟨404, false⟩, store, false)
  else
    let updated := markFirstRead msgId nowIso store
    if fsOk then (⟨200, true⟩, updated, true)
    else (⟨500, false⟩, updated, true)

/-! ## Per-IP rate limiter

Modelled from the spec: the `express-rate-limit` implementation is not
part of src/ (server.js only passes its configuration: `windowMs` 15
minutes, `max` 10 per IP). The spec describes a fixed window per IP:
within one window each request increments the hit count, the first 10
are accepted and the 11th is rejected with a 429-equivalent; a request
past the window end starts a fresh window. -/

/-- Per-IP limiter entry: hits so far and the window start time
(milliseconds). -/
structure LimiterEntry where
  hits : Nat
  windowStart : Nat
deriving DecidableEq

/-- The limiter store, keyed by IP. -/
abbrev LimiterStore := List (String × LimiterEntry)

/-- Insert or replace the entry of a key. -/
def setKV (store : LimiterStore) (key : String) (e : LimiterEntry) :
    LimiterStore :=
  (key, e) :: store.filter (fun p => p.1 ≠ key)

/-- `windowMs` from the limiter configuration in server.js. -/
def windowMs : Nat := 15 * 60 * 1000

/-- `max` from the limiter configuration in server.js. -/
def maxHits : Nat := 10

/-- One request through the limiter: a request at `t` from a fresh IP or
past the window end opens a window with one hit; otherwise the hit count
increments and the request passes exactly when the count stays within
`max` (`true` = forwarded to the handler, `false` = 429 response). -/
def rateLimitStep (store : LimiterStore) (ip : String) (t : Nat) :
    Bool × LimiterStore :=
  match findKV store ip with
  | none => (true, setKV store ip ⟨1, t⟩)
  | some e =>
      if t ≥ e.windowStart + windowMs then (true, setKV store ip ⟨1, t⟩)
      else
        let hits := e.hits + 1
        (decide (hits ≤ maxHits), setKV store ip ⟨hits, e.windowStart⟩)

/-- Run a sequence of `(ip, time)` requests through the limiter,
collecting the accept/reject outcomes in order. -/
def runLimiter : List (String × Nat) → LimiterStore → List Bool × LimiterStore
  | [], store => ([], store)
  | (ip, t) :: rest, store =>
      let r := rateLimitStep store ip t
      let rs := runLimiter rest r.2
      (r.1 :: rs.1, rs.2)

/-! ## Shared concrete inputs for witnesses and counterexamples -/

/-- A concrete captcha challenge (the shape `generateChallenge`
produces). -/
def demoChallenge : Challenge := { question := "2 + 3 = ?", answer := 5, id := "c1" }

/-- A concrete valid contact form. -/
def demoForm : ContactFormData :=
  { name := "Jo", email := "a@b.c", message := "hello there ok", captcha := "5" }

/-- A detection environment where every geolocation API fails and the
timezone is unavailable. -/
def offlineEnv : DetectEnv :=
  { api1 := none, api2 := none, api3 := none,
    timezone := none, browserLanguage := none, fetch := fun _ => none }

/-- A dictionary fetch oracle where only the default language file is
present. -/
def demoFetch : String → Option Dict :=
  fun l => if l = "en" then some [("a", TransValue.str "b")] else none

/-- A concrete component state whose honeypot field is populated. -/
def honeypotState : ContactState :=
  { formData := demoForm, honeypotField := "bot",
    captchaChallenge := some demoChallenge, isSubmitting := false,
    isModalOpen := true, serviceChallenge := some demoChallenge }

/-- A state whose `localStorage` holds the stored preference `ro`. -/
def prefState : AppState :=
  { initialAppState with localStored := some "ro" }

/-- A detection environment whose first geolocation API reports `RO`. -/
def roEnv : DetectEnv :=
  { offlineEnv with api1 := some "RO" }

/-- A concrete valid backend contact request. -/
def demoReq : ContactReq :=
  { name := " Jo ", email := " A@B.Co ", message := " hello there ok " }

/-- A concrete stored backend message. -/
def demoMsg : ServerMessage :=
  { id := "1", name := "Jo", email := "a@b.c", message := "hello there ok",
    timestamp := "t0", ip := "1.2.3.4", userAgent := "ua", status := "new",
    readAt := none }

/-! ## Theorems -/

/-- Helper for C1: the hardcoded fallback never returns the empty string
for a non-empty key path (`fallbackMap[keyPath] || keyPath` yields either
the key path itself or a value the `||` has checked to be truthy). -/
theorem getFallbackText_ne_empty (k : String) (hk : k ≠ "") :
    getFallbackText k ≠ "" := by
  unfold getFallbackText
  cases h : findKV fallbackMap k with
  | none => exact hk
  | some v =>
      by_cases hv : v = ""
      · simp [hv]
        exact hk
      · simp [hv]

/-- C1 counterexample: `translate` applied to the empty key path over an
empty dictionary returns the empty string, and parameter substitution
can also empty the result for a non-empty absent key path; both
contradict the claim that every key path yields a non-empty string. -/
theorem translate_empty_key_counterexample :
    translate [] "" none = "" ∧
    translate [] "\x7b\x7bx\x7d\x7d" (some [("x", "")]) = "" := by
  constructor <;> decide

/-- C1 (amended): `translate` is a total Lean function (so the embedded
lookup never throws), and for every dictionary and every non-empty key
path whose dotted-path traversal does not resolve to a string, the
parameterless `translate` returns a non-empty string (the hardcoded
fallback, or the raw key path). -/
theorem translate_fallback_nonempty (dict : Dict) (keyPath : String)
    (hk : keyPath ≠ "")
    (hr : resolvePath (TransValue.obj dict) (jsSplit '.' keyPath) = none) :
    translate dict keyPath none ≠ "" := by
  show getTranslationByKey dict keyPath ≠ ""
  unfold getTranslationByKey
  by_cases hd : dict.isEmpty
  · simpa [hd] using getFallbackText_ne_empty keyPath hk
  · simpa [hd, hr] using getFallbackText_ne_empty keyPath hk

/-- C1 witness: the amended theorem at the concrete absent key path
`nonexistent.key` over the empty dictionary. -/
theorem translate_fallback_nonempty_witness :
    translate [] "nonexistent.key" none ≠ "" :=
  translate_fallback_nonempty [] "nonexistent.key" (by decide) (by decide)

/-- C2: when the dictionary fetch for a non-default language fails and
the default language's file is fetchable, `loadLanguage` ends with the
default dictionary installed as the in-memory dictionary and the default
as the current language. -/
theorem loadLanguage_default_fallback (fetch : String → Option Dict)
    (language : String) (s : AppState) (d : Dict)
    (hne : language ≠ defaultLanguage) (hfail : fetch language = none)
    (hok : fetch defaultLanguage = some d) :
    (loadLanguage fetch language s).1.translations = d ∧
    (loadLanguage fetch language s).1.currentLanguage = defaultLanguage := by
  rw [loadLanguage, hfail]
  simp only [if_neg hne]
  rw [loadLanguage, hok]
  exact ⟨rfl, rfl⟩

/-- C2 witness: loading `ro` under an oracle where only `en.json` exists
installs the `en` dictionary. -/
theorem loadLanguage_default_fallback_witness :
    (loadLanguage demoFetch "ro" initialAppState).1.translations =
      [("a", TransValue.str "b")] ∧
    (loadLanguage demoFetch "ro" initialAppState).1.currentLanguage =
      defaultLanguage :=
  loadLanguage_default_fallback demoFetch "ro" initialAppState
    [("a", TransValue.str "b")] (by decide) rfl rfl

/-- C4: a honeypot field that is non-empty after trimming makes
`onSubmit` return silently: no network call, no toast, no local backup
write, and the component, captcha-service and storage state all
unchanged. -/
theorem onSubmit_honeypot_silent (fresh : Challenge) (result : SubmitResult)
    (nowTs : String) (s : ContactState) (storage : List LocalMessage)
    (h : jsTrim s.honeypotField ≠ "") :
    onSubmit fresh result nowTs s storage = (s, [], storage) := by
  have h0 : s.honeypotField ≠ "" := by
    intro he
    exact h (by rw [he]; rfl)
  unfold onSubmit
  simp [h, h0]

/-- C4 witness: the honeypot theorem at a concrete populated state. -/
theorem onSubmit_honeypot_silent_witness :
    onSubmit demoChallenge (SubmitResult.success "id1") "t0"
      honeypotState [] = (honeypotState, [], []) :=
  onSubmit_honeypot_silent demoChallenge (SubmitResult.success "id1") "t0"
    honeypotState [] (by decide)

/-- C10: the mark-as-read endpoint leaves the message store untouched
and performs no file rewrite both when the id is unknown (404 with
`success: false` under the correct admin key) and when the admin key is
wrong (401). -/
theorem markRead_guards (key msgId nowIso : String) (fsOk : Bool)
    (store : List ServerMessage) :
    (key = adminKey → (∀ m ∈ store, m.id ≠ msgId) →
      markRead key msgId nowIso fsOk store =
        ({ status := 404, success := false }, store, false)) ∧
    (key ≠ adminKey →
      markRead key msgId nowIso fsOk store =
        ({ status := 401, success := false }, store, false)) := by
  constructor
  · intro hkey hid
    have hany : store.any (fun m => m.id = msgId) = false := by
      simp only [List.any_eq_false, decide_eq_true_eq]
      exact hid
    unfold markRead
    simp [hkey, hany]
  · intro hkey
    unfold markRead
    simp [hkey]

/-- C10 witness: the guard theorem at a concrete store with one
message. -/
theorem markRead_guards_witness :
    markRead adminKey "404id" "t1" true [demoMsg] =
      ({ status := 404, success := false }, [demoMsg], false) ∧
    markRead "wrong_key" "404id" "t1" true [demoMsg] =
      ({ status := 401, success := false }, [demoMsg], false) :=
  ⟨(markRead_guards adminKey "404id" "t1" true [demoMsg]).1 rfl (by decide),
   (markRead_guards "wrong_key" "404id" "t1" true [demoMsg]).2 (by decide)⟩

/-- C9: the detector's country-to-language resolution maps `RO` to `ro`
and `US` to `en`, and every country code absent from the table resolves
to the configured default language. -/
theorem countryLanguage_resolution :
    resolveCountryLanguage "RO" = "ro" ∧
    resolveCountryLanguage "US" = "en" ∧
    ∀ c, findKV countryToLanguage c = none →
      resolveCountryLanguage c = defaultLanguage := by
  refine ⟨rfl, rfl, fun c hc => ?_⟩
  unfold resolveCountryLanguage
  rw [hc]

/-- Helper for C3: deleting a key from the server captcha store makes a
subsequent lookup of that key fail. -/
theorem findKV_deleteKey (store : CaptchaStore) (k : String) :
    findKV (deleteKey store k) k = none := by
  induction store with
  | nil => rfl
  | cons p rest ih =>
      by_cases h : p.1 = k
      · simpa [deleteKey, List.filter, h] using ih
      · simpa [deleteKey, List.filter, h, findKV] using ih

/-- C3 counterexample: a client-side validation attempt with the correct
challenge id but an empty (trimmed) answer is an attempt with an invalid
outcome, yet it does not invalidate the challenge: a second attempt with
the same id then returns `true`, contradicting the single-use claim. -/
theorem captcha_empty_answer_counterexample :
    (validateAnswer "" "c1" (some demoChallenge)).1 = false ∧
    (validateAnswer "" "c1" (some demoChallenge)).2 = some demoChallenge ∧
    (validateAnswer "5" "c1" ((validateAnswer "" "c1" (some demoChallenge)).2)).1
      = true := by
  refine ⟨?_, ?_, ?_⟩ <;> decide

/-- C3 (amended): single-use holds with one proviso on the client. On
the client, an attempt with the challenge's id whose trimmed answer is
non-empty clears the challenge whatever the outcome, and every attempt
on the cleared state returns `false`; an attempt whose trimmed answer is
empty leaves the challenge in place. On the server, after any validation
attempt for an id, every later attempt with that id returns `false`
unconditionally. -/
theorem captcha_single_use (ch : Challenge) (ans : String)
    (h : jsTrim ans ≠ "") (ans2 id2 : String)
    (store : CaptchaStore) (now now2 : Nat) (cid ua ua2 : String) :
    (validateAnswer ans ch.id (some ch)).2 = none ∧
    (validateAnswer ans2 id2 (validateAnswer ans ch.id (some ch)).2).1 = false ∧
    (validateCaptcha now2 cid ua2 (validateCaptcha now cid ua store).2).1
      = false := by
  have hcl : (validateAnswer ans ch.id (some ch)).2 = none := by
    unfold validateAnswer
    simp [h]
  refine ⟨hcl, ?_, ?_⟩
  · rw [hcl]
    rfl
  · unfold validateCaptcha
    cases hf : findKV store cid with
    | none => simp [hf]
    | some e =>
        by_cases hexp : now - e.timestamp > 10 * 60 * 1000 <;>
          simp [hf, hexp, findKV_deleteKey]

/-- C3 witness: the single-use theorem at a concrete challenge, a
concrete wrong first answer, and a concrete server store. -/
theorem captcha_single_use_witness :
    (validateAnswer "9" demoChallenge.id (some demoChallenge)).2 = none ∧
    (validateAnswer "5" "c1"
        (validateAnswer "9" demoChallenge.id (some demoChallenge)).2).1 = false ∧
    (validateCaptcha 1 "k1" "5"
        (validateCaptcha 0 "k1" "9" [("k1", { answer := 5, timestamp := 0 })]).2).1
      = false :=
  captcha_single_use demoChallenge "9" (by decide) "5" "c1"
    [("k1", { answer := 5, timestamp := 0 })] 0 1 "k1" "9" "5"

/-- C6 counterexample: a contact submission whose network request fails
leaves the local-storage backup array unchanged (here: still empty) —
the message is not preserved locally on network failure, contradicting
the claim. The network call did happen and the observable delivered the
error. -/
theorem submit_failure_no_backup_counterexample :
    submitMessage false demoForm (some "c1") "g1" "t0" NetResult.err [] =
      (SubmitEmit.error, [], [MsgCall.contactPost demoForm (some "c1")]) := by
  decide

/-- Helper for C6: the freshly appended message survives the
`slice(-100)` bound (the eviction drops from the front). -/
theorem mem_takeLast_append (l : List LocalMessage) (x : LocalMessage) :
    x ∈ takeLast 100 (l ++ [x]) := by
  unfold takeLast
  have hk : (l ++ [x]).length - 100 ≤ l.length := by
    simp only [List.length_append, List.length_singleton]
    omega
  rw [List.drop_append_of_le_length hk]
  exact List.mem_append_right _ (List.mem_singleton_self x)

/-- C6 (amended): the local backup is written when the backend responds
with success (and on the production `api-not-available` path), not on
network failure: on success the backup becomes
`slice(-100)` of the old array plus the new message — so it is bounded
to the most recent 100 entries with the oldest evicted first and
contains the new message — while a network error leaves the backup
exactly as it was. -/
theorem submit_backup_on_success (formData : ContactFormData)
    (captchaId : Option String) (genId nowTs rid : String)
    (storage : List LocalMessage) :
    ((submitMessage false formData captchaId genId nowTs
        (NetResult.ok true rid) storage).2.1 =
      saveMessageLocally formData rid nowTs storage) ∧
    (saveMessageLocally formData rid nowTs storage).length ≤ 100 ∧
    (∃ m ∈ saveMessageLocally formData rid nowTs storage,
      m.name = formData.name ∧ m.email = formData.email ∧
        m.message = formData.message ∧ m.id = rid ∧ m.status = "new") ∧
    ((submitMessage false formData captchaId genId nowTs
        NetResult.err storage).2.1 = storage) := by
  refine ⟨rfl, ?_, ?_, rfl⟩
  · unfold saveMessageLocally takeLast
    rw [List.length_drop]
    omega
  · exact ⟨_, mem_takeLast_append storage _, rfl, rfl, rfl, rfl, rfl⟩

/-- Helper for C5: marking as read walks past messages with other ids
and updates the appended fresh message. -/
theorem markFirstRead_append_fresh (l : List ServerMessage)
    (x : ServerMessage) (i t : String) (hx : x.id = i)
    (hl : ∀ m ∈ l, m.id ≠ i) :
    markFirstRead i t (l ++ [x]) =
      l ++ [{ x with status := "read", readAt := some t }] := by
  induction l with
  | nil => simp [markFirstRead, hx]
  | cons a rest ih =>
      have ha : a.id ≠ i := hl a (List.mem_cons_self a rest)
      simp only [List.cons_append, markFirstRead, if_neg ha, List.append_eq]
      rw [ih (fun m hm => hl m (List.mem_cons_of_mem a hm))]

/-- C5: round-trip over the backend store. A valid submission (fresh id,
successful file write) responds `ok` and appends a message whose name,
email and message match the trimmed (and, for email, lower-cased)
request fields with status `new`; the admin listing with the correct key
returns it; after mark-as-read on its id the listing shows the same
message with status `read` and a non-null `readAt`. -/
theorem contact_roundtrip (store : List ServerMessage) (r : ContactReq)
    (newId nowIso ip ua t2 : String)
    (hv : validateContactData r = true)
    (hfresh : ∀ m ∈ store, m.id ≠ newId) :
    (postContact r newId nowIso ip ua true store).1 = ContactResponse.ok newId ∧
    (∃ msgs, getAdminMessages adminKey
        (postContact r newId nowIso ip ua true store).2 = some msgs ∧
      ∃ m ∈ msgs, m.id = newId ∧ m.name = jsTrim r.name ∧
        m.email = jsToLower (jsTrim r.email) ∧ m.message = jsTrim r.message ∧
        m.status = "new") ∧
    (markRead adminKey newId t2 true
        (postContact r newId nowIso ip ua true store).2).1 =
      { status := 200, success := true } ∧
    (∃ msgs, getAdminMessages adminKey
        (markRead adminKey newId t2 true
          (postContact r newId nowIso ip ua true store).2).2.1 = some msgs ∧
      ∃ m ∈ msgs, m.id = newId ∧ m.name = jsTrim r.name ∧
        m.email = jsToLower (jsTrim r.email) ∧ m.message = jsTrim r.message ∧
        m.status = "read" ∧ m.readAt = some t2) := by
  have hpost : postContact r newId nowIso ip ua true store =
      (ContactResponse.ok newId, store ++
        [{ id := newId, name := jsTrim r.name,
           email := jsToLower (jsTrim r.email), message := jsTrim r.message,
           timestamp := nowIso, ip := ip, userAgent := ua, status := "new",
           readAt := none }]) := by
    unfold postContact
    simp [hv]
  have hmark : markRead adminKey newId t2 true
      (postContact r newId nowIso ip ua true store).2 =
      (MarkReadResult.mk 200 true,
        store ++
          [{ id := newId, name := jsTrim r.name,
             email := jsToLower (jsTrim r.email), message := jsTrim r.message,
             timestamp := nowIso, ip := ip, userAgent := ua, status := "read",
             readAt := some t2 }],
        true) := by
    rw [hpost]
    unfold markRead
    rw [if_neg (by simp), if_neg (by simp)]
    rw [markFirstRead_append_fresh store _ newId t2 rfl hfresh]
    rfl
  refine ⟨by rw [hpost], ?_, by rw [hmark], ?_⟩
  · refine ⟨_, by rw [hpost]; rfl, ?_⟩
    refine ⟨{ id := newId, name := jsTrim r.name, email := jsToLower (jsTrim r.email), message := jsTrim r.message, timestamp := nowIso, ip := ip, userAgent := ua, status := "new", readAt := none }, ?_, rfl, rfl, rfl, rfl, rfl⟩
    rw [List.reverse_append]
    exact List.mem_append_left _ (by simp)
  · refine ⟨_, by rw [hmark]; rfl, ?_⟩
    refine ⟨{ id := newId, name := jsTrim r.name, email := jsToLower (jsTrim r.email), message := jsTrim r.message, timestamp := nowIso, ip := ip, userAgent := ua, status := "read", readAt := some t2 }, ?_, rfl, rfl, rfl, rfl, rfl, rfl⟩
    rw [List.reverse_append]
    exact List.mem_append_left _ (by simp)

/-- C5 witness: the round-trip theorem starting from the empty store
with a concrete valid request. -/
theorem contact_roundtrip_witness :
    (postContact demoReq "100" "t0" "1.2.3.4" "ua" true []).1 =
        ContactResponse.ok "100" ∧
    (∃ msgs, getAdminMessages adminKey
        (postContact demoReq "100" "t0" "1.2.3.4" "ua" true []).2 = some msgs ∧
      ∃ m ∈ msgs, m.id = "100" ∧ m.name = jsTrim demoReq.name ∧
        m.email = jsToLower (jsTrim demoReq.email) ∧
        m.message = jsTrim demoReq.message ∧ m.status = "new") ∧
    (markRead adminKey "100" "t9" true
        (postContact demoReq "100" "t0" "1.2.3.4" "ua" true []).2).1 =
      { status := 200, success := true } ∧
    (∃ msgs, getAdminMessages adminKey
        (markRead adminKey "100" "t9" true
          (postContact demoReq "100" "t0" "1.2.3.4" "ua" true []).2).2.1
        = some msgs ∧
      ∃ m ∈ msgs, m.id = "100" ∧ m.name = jsTrim demoReq.name ∧
        m.email = jsToLower (jsTrim demoReq.email) ∧
        m.message = jsTrim demoReq.message ∧ m.status = "read" ∧
        m.readAt = some "t9") :=
  contact_roundtrip [] demoReq "100" "t0" "1.2.3.4" "ua" "t9"
    (by decide) (by simp)

/-- Helper for C7: `loadLanguage` never touches the session
auto-detection marker (it writes the dictionary, the current language
and the `localStorage` preference only). -/
theorem loadLanguage_keeps_session (fetch : String → Option Dict)
    (language : String) (s : AppState) :
    (loadLanguage fetch language s).1.sessionAutoDetected =
      s.sessionAutoDetected := by
  rw [loadLanguage]
  cases hf : fetch language with
  | some d => rfl
  | none =>
      by_cases hd : language = defaultLanguage
      · simp [hd]
      · simp only [if_neg hd]
        rw [loadLanguage]
        cases hf2 : fetch defaultLanguage with
        | some d => rfl
        | none => simp

/-- Helper for C7: `setLanguage` never touches the session marker. -/
theorem setLanguage_keeps_session (fetch : String → Option Dict)
    (language : String) (s : AppState) :
    (setLanguage fetch language s).1.sessionAutoDetected =
      s.sessionAutoDetected := by
  unfold setLanguage
  split
  · rfl
  · split
    · rfl
    · exact loadLanguage_keeps_session fetch language s

/-- Helper for C7: the country-to-language resolution is never the empty
string (either a table value past the `||` truthiness check, or the
default `en`). -/
theorem resolveCountryLanguage_ne_empty (c : String) :
    resolveCountryLanguage c ≠ "" := by
  unfold resolveCountryLanguage
  cases findKV countryToLanguage c with
  | none => decide
  | some v =>
      by_cases hv : v = ""
      · simp only [if_pos hv]
        decide
      · simp only [if_neg hv]
        exact hv

/-- Helper for C7: the detection entry point returns immediately (state
unchanged, no network calls) whenever a stored preference exists or the
session marker is already set to a truthy value. -/
theorem detect_skips (env : DetectEnv) (x : AppState)
    (h : (∃ l, getStoredLanguage x = some l) ∨
      (∃ v, x.sessionAutoDetected = some v ∧ v ≠ "")) :
    detectAndSetLanguageByCountry env x = (x, []) := by
  unfold detectAndSetLanguageByCountry
  rcases h with ⟨l, hl⟩ | ⟨v, hv, hne⟩
  · rw [hl]
  · cases hst : getStoredLanguage x with
    | some _ => rfl
    | none =>
        rw [hv]
        simp [hne]

/-- C7 counterexample: in a session with no stored preference where
every geolocation API fails and the timezone is unknown, a detection run
issues the three geo-IP network calls but resolves no country, so
neither the session marker nor anything else in the state is written —
and a second call in the same session issues the three network calls
again, contradicting the at-most-once-per-session claim. -/
theorem detection_rerun_counterexample :
    (detectAndSetLanguageByCountry offlineEnv initialAppState).1 =
      initialAppState ∧
    (detectAndSetLanguageByCountry offlineEnv
        (detectAndSetLanguageByCountry offlineEnv initialAppState).1).2 =
      [Effect.geoFetch geoUrl1, Effect.geoFetch geoUrl2,
        Effect.geoFetch geoUrl3] :=
  ⟨rfl, rfl⟩

/-- C7 (amended): when a stored preference exists, startup resolution
uses it unconditionally and `detectAndSetLanguageByCountry` performs no
network calls and changes nothing; when no preference is stored,
detection runs at most once per session provided the first run resolves
a country (only then is the session marker written; a run that resolves
no country leaves the marker unset and a later call may detect
again). -/
theorem language_detection_once (env : DetectEnv) (s : AppState) :
    (∀ l, getStoredLanguage s = some l →
      getCurrentLanguage env s = l ∧
      detectAndSetLanguageByCountry env s = (s, [])) ∧
    (∀ code effs, getStoredLanguage s = none →
      s.sessionAutoDetected = none →
      detectCountry env = (some code, effs) → code ≠ "" →
      detectAndSetLanguageByCountry env
          (detectAndSetLanguageByCountry env s).1 =
        ((detectAndSetLanguageByCountry env s).1, [])) := by
  constructor
  · intro l hl
    constructor
    · unfold getCurrentLanguage
      rw [hl]
    · unfold detectAndSetLanguageByCountry
      rw [hl]
  · intro code effs h1 h2 hdc hcode
    have hfirst : (detectAndSetLanguageByCountry env s).1 =
        (setLanguage env.fetch (resolveCountryLanguage code)
          { s with sessionAutoDetected := some (resolveCountryLanguage code) }).1 := by
      unfold detectAndSetLanguageByCountry
      rw [h1, h2]
      unfold detectBody
      rw [hdc]
      simp [hcode]
    have hsess : (detectAndSetLanguageByCountry env s).1.sessionAutoDetected =
        some (resolveCountryLanguage code) := by
      rw [hfirst, setLanguage_keeps_session]
    apply detect_skips
    cases hst : getStoredLanguage (detectAndSetLanguageByCountry env s).1 with
    | some l => exact Or.inl ⟨l, rfl⟩
    | none => exact Or.inr ⟨_, hsess, resolveCountryLanguage_ne_empty code⟩

/-- C7 witness: the amended theorem with the stored-preference part at a
state holding `ro`, and the once-per-session part in an environment
whose first geolocation API reports `RO`. -/
theorem language_detection_once_witness :
    (getCurrentLanguage offlineEnv prefState = "ro" ∧
      detectAndSetLanguageByCountry offlineEnv prefState = (prefState, [])) ∧
    detectAndSetLanguageByCountry roEnv
        (detectAndSetLanguageByCountry roEnv initialAppState).1 =
      ((detectAndSetLanguageByCountry roEnv initialAppState).1, []) :=
  ⟨(language_detection_once offlineEnv prefState).1 "ro" rfl,
   (language_detection_once roEnv initialAppState).2 "RO"
     [Effect.geoFetch geoUrl1] rfl rfl rfl (by decide)⟩

/-- Helper for C8: looking up the key just written. -/
theorem findKV_setKV (store : LimiterStore) (k : String) (e : LimiterEntry) :
    findKV (setKV store k e) k = some e := by
  simp [setKV, findKV]

/-- Helper for C8: starting from a window entry with `k` hits, the
outcomes of further same-window requests from that IP are `hits ≤ max`
checks with the count continuing from `k`. -/
theorem runLimiter_in_window (ip : String) (t1 : Nat) (rest : List Nat) :
    ∀ (k : Nat) (store : LimiterStore),
      findKV store ip = some { hits := k, windowStart := t1 } →
      (∀ t ∈ rest, t < t1 + windowMs) →
      (runLimiter (rest.map (fun t => (ip, t))) store).1 =
        (List.range rest.length).map (fun i => decide (k + 1 + i ≤ maxHits)) := by
  induction rest with
  | nil =>
      intro k store _ _
      rfl
  | cons t ts ih =>
      intro k store hst hw
      have hlt : ¬ t ≥ t1 + windowMs := by
        have := hw t (List.mem_cons_self t ts)
        omega
      simp only [List.map_cons, runLimiter, rateLimitStep, hst, if_neg hlt]
      rw [ih (k + 1) _ (findKV_setKV store ip { hits := k + 1, windowStart := t1 })
        (fun u hu => hw u (List.mem_cons_of_mem t hu))]
      rw [List.length_cons, List.range_succ_eq_map, List.map_cons, List.map_map]
      refine congrArg₂ _ rfl ?_
      apply List.map_congr_left
      intro i _
      have harith : k + 1 + 1 + i = k + 1 + (i + 1) := by omega
      simp [Function.comp, harith]

/-- C8: from a fresh IP, eleven requests within one 15-minute window are
answered with ten accepts followed by one reject (the 429-equivalent):
the first 10 pass the limiter, the 11th is limited. -/
theorem rateLimiter_eleventh_rejected (ip : String) (t1 : Nat)
    (rest : List Nat) (hlen : rest.length = 10)
    (hw : ∀ t ∈ rest, t < t1 + windowMs) :
    (runLimiter ((ip, t1) :: rest.map (fun t => (ip, t))) []).1 =
      List.replicate 10 true ++ [false] := by
  have h0 : rateLimitStep [] ip t1 =
      (true, setKV [] ip { hits := 1, windowStart := t1 }) := rfl
  simp only [runLimiter, h0]
  rw [runLimiter_in_window ip t1 rest 1 _
    (findKV_setKV [] ip { hits := 1, windowStart := t1 }) hw]
  rw [hlen]
  decide

/-- C8 witness: eleven requests at concrete in-window times. -/
theorem rateLimiter_eleventh_rejected_witness :
    (runLimiter (("1.2.3.4", 0) ::
        (List.replicate 10 1).map (fun t => ("1.2.3.4", t))) []).1 =
      List.replicate 10 true ++ [false] :=
  rateLimiter_eleventh_rejected "1.2.3.4" 0 (List.replicate 10 1) (by decide)
    (by
      intro t ht
      rw [List.eq_of_mem_replicate ht]
      decide)

/-- C9 witness: the resolution theorem with the unmapped-code branch
instantiated at the concrete code `XX`. -/
theorem countryLanguage_resolution_witness :
    resolveCountryLanguage "RO" = "ro" ∧
    resolveCountryLanguage "US" = "en" ∧
    resolveCountryLanguage "XX" = defaultLanguage :=
  ⟨countryLanguage_resolution.1, countryLanguage_resolution.2.1,
   countryLanguage_resolution.2.2 "XX" (by decide)⟩

end WebFirm
